import Mathlib

/-!
Shallow embedding of the differential-growth engine of `dxdy.draw`
(`src/algorithm/{zone_map, segments, differential_line, mod}.rs`).

Conventions of the embedding:
- `f64` values are modelled as exact rationals `ℚ`; every arithmetic
  operation the modelled code performs on them (`+`, `-`, `*`, `/`,
  comparisons, truncating casts) is exact on the inputs used by the
  theorems below.
- Rust `Vec<T>` is modelled as `List T` together with the two indexing
  primitives `vecGet`/`vecSet`; an index that is not below the length of
  the list is an out-of-bounds panic, modelled as `Except.error`.
  `Vec::with_capacity(n)` yields a vector of length 0, exactly as in Rust.
- A Rust `as usize` cast of a negative `i64` wraps to a value of at least
  `2 ^ 63`, which exceeds the length of every vector in this program, so
  indexing with it is always out of bounds; `usizeIdx` models the cast as
  an immediate out-of-bounds panic for negative input.
- A Rust panic (explicit `panic!` or an out-of-bounds index) is
  `Except.error msg`; the exact panic message text is abbreviated.
-/

set_option maxRecDepth 4000

/-- Out-of-bounds read of a `Vec`: `v[i]` panics when `i ≥ v.len()`. -/
def vecGet (l : List α) (i : Nat) : Except String α :=
  match l.get? i with
  | some a => Except.ok a
  | none => Except.error "index out of bounds"

/-- Out-of-bounds write of a `Vec`: `v[i] = a` panics when `i ≥ v.len()`. -/
def vecSet (l : List α) (i : Nat) (a : α) : Except String (List α) :=
  if i < l.length then Except.ok (l.set i a) else
    Except.error "index out of bounds"

/-- Models `i as usize` for an `i64` index that is then used to index a
vector: a negative value wraps to at least `2 ^ 63` and is out of bounds
for every vector of this program, hence a panic. -/
def usizeIdx (i : Int) : Except String Nat :=
  if 0 ≤ i then Except.ok i.toNat else Except.error "index out of bounds"

/-- Models the truncating cast `x as i64` of an `f64` (rounds toward
zero). -/
def ratTrunc (x : ℚ) : Int :=
  if 0 ≤ x then Rat.floor x else -Rat.floor (-x)

/-- Models the truncating cast `x as u64` of a nonnegative finite `f64`
(negative values saturate to 0). -/
def ratTruncU64 (x : ℚ) : Nat :=
  (ratTrunc x).toNat

/-- Source `zone_map.rs:1` - `const SIZE: u64 = 1024`. -/
def SIZE : Nat := 1024

/-- Source `zone_map.rs:3-8` - struct `Sz`, one zone of the grid. `zv` is the
list backing the per-zone vertex ids; its Rust counterpart is created
with `Vec::with_capacity` and therefore has length 0. -/
structure Sz where
  i : Nat
  size : Nat
  count : Nat
  zv : List Int
deriving DecidableEq, Repr

/-- Source `zone_map.rs:11-14` - `Sz::add_vertex`: writes `v1` at index `count`
of `zv` (an out-of-bounds write whenever `count ≥ zv.len()`), then
increments `count`. -/
def Sz.add_vertex (sz : Sz) (v1 : Int) : Except String Sz := do
  let zv ← vecSet sz.zv sz.count v1
  Except.ok { sz with zv := zv, count := sz.count + 1 }

/-- Source `zone_map.rs:17-26` - struct `ZoneMap`. `vz` maps a vertex id to its
zone; its Rust counterpart is created with `Vec::with_capacity` and
therefore has length 0. -/
structure ZoneMap where
  v_num : Nat
  v_size : Nat
  nz : Nat
  total_zones : Nat
  greatest_zone_size : Nat
  vz : List Int
  z : List Sz
deriving DecidableEq, Repr

namespace ZoneMap

/-- Source `zone_map.rs:33-55` - `ZoneMap::new(nz)`: allocates `nz * nz` zones,
each with `count = 0` and an empty (`with_capacity`) `zv`; `vz` is also
empty (`with_capacity`). -/
def new (nz : Nat) : ZoneMap :=
  { v_num := 0
    v_size := SIZE
    nz := nz
    total_zones := nz * nz
    greatest_zone_size := SIZE
    vz := []
    z := (List.range (nz * nz)).map fun i =>
      { i := i, size := SIZE, count := 0, zv := [] } }

/-- Source `zone_map.rs:90-95` - `ZoneMap::get_z`: the source computes
`let i = x as i64 * nz; let j = y as i64 * nz; nz * i + j`, in which the
cast binds tighter than the multiplication, so `x` and `y` are truncated
to integers before being scaled by `nz`. -/
def get_z (m : ZoneMap) (x y : ℚ) : Int :=
  let nz : Int := (m.nz : Int)
  let i := ratTrunc x * nz
  let j := ratTrunc y * nz
  nz * i + j

/-- Source `zone_map.rs:63-76` - `ZoneMap::add_vertex_to_zone`: appends `v1` to
zone `z1` via `Sz::add_vertex`, then performs the capacity-doubling
bookkeeping on `size` and `greatest_zone_size`. -/
def add_vertex_to_zone (m : ZoneMap) (z1 : Int) (v1 : Int) :
    Except String ZoneMap := do
  let zi ← usizeIdx z1
  let sz ← vecGet m.z zi
  let sz ← sz.add_vertex v1
  let sz :=
    if sz.size - 1 ≤ sz.count then { sz with size := sz.size * 2 } else sz
  let m :=
    if m.greatest_zone_size < sz.size then
      { m with greatest_zone_size := sz.size }
    else m
  let z ← vecSet m.z zi sz
  Except.ok { m with z := z }

end ZoneMap

/-- Source `zone_map.rs:81-87` - the scan loop of
`ZoneMap::remove_vertex_from_zone`: walks `zv[idx..count]` looking for
`v1`; on a hit it swap-removes (overwrites the hit with the last
element and decrements `count`) and stops. -/
def removeVertexScan (v1 : Int) (sz : Sz) (idx : Nat) : Except String Sz :=
  if idx < sz.count then do
    let a ← vecGet sz.zv idx
    if a = v1 then do
      let last ← vecGet sz.zv (sz.count - 1)
      let zv ← vecSet sz.zv idx last
      Except.ok { sz with zv := zv, count := sz.count - 1 }
    else
      removeVertexScan v1 sz (idx + 1)
  else
    Except.ok sz
termination_by sz.count - idx

namespace ZoneMap

/-- Source `zone_map.rs:78-88` - `ZoneMap::remove_vertex_from_zone`:
runs the scan loop from index 0 on zone `z1`; does nothing if `v1` is
not present. -/
def remove_vertex_from_zone (m : ZoneMap) (z1 : Int) (v1 : Int) :
    Except String ZoneMap := do
  let zi ← usizeIdx z1
  let sz ← vecGet m.z zi
  let sz ← removeVertexScan v1 sz 0
  let z ← vecSet m.z zi sz
  Except.ok { m with z := z }

/-- Source `zone_map.rs:103-124` - `ZoneMap::add_vertex(v1, xs, ys)`: reads the
coordinates at index `v1`, computes the zone with `get_z`, appends the
id `v_num` (its own counter) to that zone, records the zone in
`vz[v_num]` (an out-of-bounds write, `vz` having length 0 as
constructed), doubles `v_size` when needed and increments `v_num`. -/
def add_vertex (m : ZoneMap) (v1 : Nat) (xs ys : List ℚ) :
    Except String (ZoneMap × Nat) := do
  let v_num := m.v_num
  let x ← vecGet xs v1
  let y ← vecGet ys v1
  let z1 := m.get_z x y
  let m ← m.add_vertex_to_zone z1 (v_num : Int)
  let vz ← vecSet m.vz v_num z1
  let m := { m with vz := vz }
  let m :=
    if m.v_size - 1 ≤ v_num then { m with v_size := m.v_size * 2 } else m
  Except.ok ({ m with v_num := v_num + 1 }, v_num)

/-- Source `zone_map.rs:126-129` - `ZoneMap::delete_vertex`: reads the recorded
zone `vz[v1]`, removes `v1` from that zone, and marks `vz[v1] = -1`. -/
def delete_vertex (m : ZoneMap) (v1 : Int) : Except String ZoneMap := do
  let vi ← usizeIdx v1
  let z1 ← vecGet m.vz vi
  let m ← m.remove_vertex_from_zone z1 v1
  let vz ← vecSet m.vz vi (-1)
  Except.ok { m with vz := vz }

end ZoneMap

/-- Source `segments.rs:9-44` - struct `Segments`. The arrays `x`, `y`, `va`,
`vs` have length `n_max` and `ev`, `ve` have length `2 * n_max`: these
are built with `vec![...]` and genuinely have that length, unlike the
`ZoneMap` scratch vectors. -/
structure Segments where
  n_max : Nat
  zone_width : ℚ
  v_num : Nat
  v_act : Nat
  e_num : Nat
  s_num : Nat
  nz : Nat
  x : List ℚ
  y : List ℚ
  va : List Int
  vs : List Int
  ev : List Int
  ve : List Int
  zone_map : ZoneMap
deriving DecidableEq, Repr

namespace Segments

/-- Source `segments.rs:55-78` - `Segments::new(n_max, zone_width)`: derives
`nz = zone_width.recip() as u64` (clamped to 1 when below 3) and
pre-sizes every array. Models a positive finite `zone_width`, which is
what every caller passes. -/
def new (n_max : Nat) (zone_width : ℚ) : Segments :=
  let nz0 := ratTruncU64 zone_width⁻¹
  let nz := if nz0 < 3 then 1 else nz0
  let zone_width := if nz0 < 3 then (1 : ℚ) else zone_width
  { n_max := n_max
    zone_width := zone_width
    v_num := 0
    v_act := 0
    e_num := 0
    s_num := 0
    nz := nz
    x := List.replicate n_max 0
    y := List.replicate n_max 0
    va := List.replicate n_max (-1)
    vs := List.replicate n_max (-1)
    ev := List.replicate (2 * n_max) (-1)
    ve := List.replicate (2 * n_max) (-1)
    zone_map := ZoneMap.new nz }

end Segments

/-- Source `segments.rs:85-88` - `valid_new_vertex`: both coordinates must lie
in the inclusive range `0.0..=1.0`. -/
def validNewVertex (x y : ℚ) : Bool :=
  decide (0 ≤ x ∧ x ≤ 1 ∧ 0 ≤ y ∧ y ≤ 1)

namespace Segments

/-- Source `segments.rs:95-111` - `Segments::add_vertex`: panics when the
coordinates are outside the unit square, writes position, status 1 and
segment id at slot `v_num`, registers the vertex in the zone map, and
increments `v_num`. -/
def add_vertex (s : Segments) (x y : ℚ) (seg : Int) :
    Except String (Segments × Int) := do
  if !validNewVertex x y then
    Except.error "Vertex is outside the unit square"
  else
    let v_num := s.v_num
    let xs ← vecSet s.x v_num x
    let ys ← vecSet s.y v_num y
    let va ← vecSet s.va v_num 1
    let vs ← vecSet s.vs v_num seg
    let (zm, _) ← s.zone_map.add_vertex v_num xs ys
    Except.ok
      ({ s with
          x := xs, y := ys, va := va, vs := vs, zone_map := zm,
          v_num := v_num + 1 },
        (v_num : Int))

/-- Source `segments.rs:113-129` - `Segments::add_passive_vertex`: identical to
`add_vertex` except the status written is 0. -/
def add_passive_vertex (s : Segments) (x y : ℚ) (seg : Int) :
    Except String (Segments × Int) := do
  if !validNewVertex x y then
    Except.error "Vertex is outside the unit square"
  else
    let v_num := s.v_num
    let xs ← vecSet s.x v_num x
    let ys ← vecSet s.y v_num y
    let va ← vecSet s.va v_num 0
    let vs ← vecSet s.vs v_num seg
    let (zm, _) ← s.zone_map.add_vertex v_num xs ys
    Except.ok
      ({ s with
          x := xs, y := ys, va := va, vs := vs, zone_map := zm,
          v_num := v_num + 1 },
        (v_num : Int))

end Segments

/-- Models the `Result<(), ()>` value returned by `Segments::split_edge`:
`ok` is `Ok(())`, `err` is the soft failure `Err(())`. -/
inductive RustResult where
  | ok : RustResult
  | err : RustResult
deriving DecidableEq, Repr

namespace Segments

/-- Source `segments.rs:131-137` - `Segments::valid_new_edge`: both ids must lie
in `0..v_num` and both statuses must be nonnegative, evaluated with Rust
short-circuit order. -/
def valid_new_edge (s : Segments) (v1 v2 : Int) : Except String Bool := do
  if 0 ≤ v1 ∧ v1 < (s.v_num : Int) then
    if 0 ≤ v2 ∧ v2 < (s.v_num : Int) then do
      let a1 ← vecGet s.va v1.toNat
      if 0 ≤ a1 then do
        let a2 ← vecGet s.va v2.toNat
        Except.ok (decide (0 ≤ a2))
      else Except.ok false
    else Except.ok false
  else Except.ok false

/-- Source `segments.rs:157-165` - `Segments::add_e_to_ve`: stores `e` in the
first incident-edge slot of `v` if that slot is negative, otherwise in
the second slot. -/
def add_e_to_ve (s : Segments) (v : Int) (e : Int) :
    Except String Segments := do
  let vi ← usizeIdx v
  let a ← vecGet s.ve (2 * vi)
  if a < 0 then do
    let ve ← vecSet s.ve (2 * vi) e
    Except.ok { s with ve := ve }
  else do
    let ve ← vecSet s.ve (2 * vi + 1) e
    Except.ok { s with ve := ve }

/-- Source `segments.rs:139-155` - `Segments::add_edge`: panics when
`valid_new_edge` fails, writes the endpoint pair at slot `e_num`,
registers the edge in both endpoint slot pairs and increments
`e_num`. -/
def add_edge (s : Segments) (v1 v2 : Int) :
    Except String (Segments × Int) := do
  let ok ← s.valid_new_edge v1 v2
  if !ok then
    Except.error "invalid vertex"
  else
    let e_num := s.e_num
    let ev ← vecSet s.ev (2 * e_num) v1
    let ev ← vecSet ev (2 * e_num + 1) v2
    let s := { s with ev := ev }
    let s ← s.add_e_to_ve v1 (e_num : Int)
    let s ← s.add_e_to_ve v2 (e_num : Int)
    Except.ok ({ s with e_num := e_num + 1 }, (e_num : Int))

/-- Source `segments.rs:167-170` - `Segments::edge_exists`: both entries of the
endpoint pair are greater than -1, with Rust short-circuit order (the
index cast of a negative `e1` is an out-of-bounds panic). -/
def edge_exists (s : Segments) (e1 : Int) : Except String Bool := do
  let ei ← usizeIdx e1
  let a ← vecGet s.ev (2 * ei)
  if a > -1 then do
    let b ← vecGet s.ev (2 * ei + 1)
    Except.ok (decide (b > -1))
  else Except.ok false

/-- Source `segments.rs:211-220` - `Segments::delete_e_from_ve`: if the first
slot of `v` holds `e`, the second slot is swapped into the first and
cleared; else if the second slot holds `e` it is cleared. -/
def delete_e_from_ve (s : Segments) (v : Int) (e : Int) :
    Except String Segments := do
  let vi ← usizeIdx v
  let a ← vecGet s.ve (2 * vi)
  if a = e then do
    let b ← vecGet s.ve (2 * vi + 1)
    let ve ← vecSet s.ve (2 * vi) b
    let ve ← vecSet ve (2 * vi + 1) (-1)
    Except.ok { s with ve := ve }
  else do
    let b ← vecGet s.ve (2 * vi + 1)
    if b = e then do
      let ve ← vecSet s.ve (2 * vi + 1) (-1)
      Except.ok { s with ve := ve }
    else Except.ok s

/-- Source `segments.rs:193-209` - `Segments::delete_edge`: panics when `e1` is
outside `0..e_num`, tombstones the endpoint pair with (-1,-1), and
removes `e1` from the slot pairs of both former endpoints when these are
nonnegative. -/
def delete_edge (s : Segments) (e1 : Int) : Except String Segments := do
  if e1 < 0 ∨ (s.e_num : Int) ≤ e1 then
    Except.error "invalid edge"
  else
    let i := 2 * e1.toNat
    let v1 ← vecGet s.ev i
    let v2 ← vecGet s.ev (i + 1)
    let ev ← vecSet s.ev i (-1)
    let ev ← vecSet ev (i + 1) (-1)
    let s := { s with ev := ev }
    let s ← if v1 > -1 then s.delete_e_from_ve v1 e1 else Except.ok s
    let s ← if v2 > -1 then s.delete_e_from_ve v2 e1 else Except.ok s
    Except.ok s

/-- Source `segments.rs:184-187` - `Segments::delete_vertex`: sets the status to
-1 and removes the vertex from the zone map. -/
def delete_vertex (s : Segments) (v1 : Int) : Except String Segments := do
  let vi ← usizeIdx v1
  let va ← vecSet s.va vi (-1)
  let zm ← s.zone_map.delete_vertex v1
  Except.ok { s with va := va, zone_map := zm }

/-- Source `segments.rs:602-647` - `Segments::split_edge(e1, min_len)`: soft
failure (`Err`, no mutation) when `e1` is negative, when the edge does
not exist, or when the first endpoint has a negative segment id; panic
when `min_len > 0` and the squared edge length is below `min_len²`;
otherwise creates the midpoint vertex with the segment id of `v1`,
deletes `e1` and adds the edges `v1`-new and `v2`-new. -/
def split_edge (s : Segments) (e1 : Int) (min_len : ℚ) :
    Except String (Segments × RustResult) := do
  if e1 < 0 then Except.ok (s, RustResult.err) else do
  let ex ← s.edge_exists e1
  if !ex then Except.ok (s, RustResult.err) else do
  let i := 2 * e1.toNat
  let v1 ← vecGet s.ev i
  let v2 ← vecGet s.ev (i + 1)
  let v1i ← usizeIdx v1
  let v2i ← usizeIdx v2
  let sg ← vecGet s.vs v1i
  if sg < 0 then Except.ok (s, RustResult.err) else do
  let x1 ← vecGet s.x v1i
  let x2 ← vecGet s.x v2i
  let y1 ← vecGet s.y v1i
  let y2 ← vecGet s.y v2i
  if 0 < min_len ∧
      (x1 - x2) * (x1 - x2) + (y1 - y2) * (y1 - y2) <
        min_len * min_len then
    Except.error "cannot split edge shorter than the minimum"
  else do
    let mid_x := (x1 + x2) / 2
    let mid_y := (y1 + y2) / 2
    let (s, v3) ← s.add_vertex mid_x mid_y sg
    let s ← s.delete_edge e1
    let (s, _) ← s.add_edge v1 v3
    let (s, _) ← s.add_edge v2 v3
    Except.ok (s, RustResult.ok)

/-- Source `segments.rs:649-651` - `Segments::split_edge_no_min`. -/
def split_edge_no_min (s : Segments) (e1 : Int) :
    Except String (Segments × RustResult) :=
  s.split_edge e1 (-1)

/-- Source `segments.rs:541-591` - `Segments::collapse_edge(e1, max_len)`:
panics when `e1` is negative, when the edge does not exist, when either
endpoint status is below 1 (passive or deleted), or when `max_len > 0`
and the squared length exceeds `max_len²`; otherwise finds the other
edge `e2` of `v1` and its far endpoint `v3`, moves `v2` to the midpoint,
deletes `e1`, `e2` and vertex `v1`, and adds the edge `v3`-`v2`. -/
def collapse_edge (s : Segments) (e1 : Int) (max_len : ℚ) :
    Except String Segments := do
  if e1 < 0 then Except.error "invalid edge" else do
  let ex ← s.edge_exists e1
  if !ex then Except.error "edge does not exist" else do
  let i := 2 * e1.toNat
  let v1 ← vecGet s.ev i
  let v2 ← vecGet s.ev (i + 1)
  let v1i ← usizeIdx v1
  let v2i ← usizeIdx v2
  let a1 ← vecGet s.va v1i
  if a1 < 1 then Except.error "edge has passive vertex" else do
  let a2 ← vecGet s.va v2i
  if a2 < 1 then Except.error "edge has passive vertex" else do
  let b1 ← vecGet s.ve (2 * v1i)
  let e2 ← if b1 = e1 then vecGet s.ve (2 * v1i + 1) else Except.ok b1
  let e2i ← usizeIdx e2
  let c1 ← vecGet s.ev (2 * e2i)
  let v3 ← if c1 = v1 then vecGet s.ev (2 * e2i + 1) else Except.ok c1
  let x1 ← vecGet s.x v1i
  let x2 ← vecGet s.x v2i
  let y1 ← vecGet s.y v1i
  let y2 ← vecGet s.y v2i
  if 0 < max_len ∧
      max_len * max_len <
        (x1 - x2) * (x1 - x2) + (y1 - y2) * (y1 - y2) then
    Except.error "cannot collapse edge longer than the maximum"
  else do
    let xs ← vecSet s.x v2i ((x1 + x2) / 2)
    let ys ← vecSet s.y v2i ((y1 + y2) / 2)
    let s := { s with x := xs, y := ys }
    let s ← s.delete_edge e1
    let s ← s.delete_edge e2
    let s ← s.delete_vertex v1
    let (s, _) ← s.add_edge v3 v2
    Except.ok s

/-- Source `segments.rs:593-595` - `Segments::collapse_edge_no_max`. -/
def collapse_edge_no_max (s : Segments) (e1 : Int) :
    Except String Segments :=
  s.collapse_edge e1 (-1)

end Segments

/-- Source `segments.rs:750-755` - the body of the loop of
`safe_vertex_positions`, iterating over the given vertex indices in
order and returning `false` as soon as one coordinate pair falls outside
`limit..=1-limit` on either axis. -/
def safeCheckFrom (s : Segments) (limit : ℚ) :
    List Nat → Except String Bool
  | [] => Except.ok true
  | i :: rest => do
    let x ← vecGet s.x i
    let y ← vecGet s.y i
    if ¬ (limit ≤ x ∧ x ≤ 1 - limit) ∨ ¬ (limit ≤ y ∧ y ≤ 1 - limit) then
      Except.ok false
    else
      safeCheckFrom s limit rest

namespace Segments

/-- Source `segments.rs:747-758` - `Segments::safe_vertex_positions(limit)`:
scans every slot `i < v_num` - regardless of the status `va[i]`, so
tombstoned (deleted) slots are scanned too - and returns false on the
first coordinate outside `limit..=1-limit`. -/
def safe_vertex_positions (s : Segments) (limit : ℚ) :
    Except String Bool :=
  safeCheckFrom s limit (List.range s.v_num)

end Segments

/-- Source `segments.rs:457-459` (also 499-501) - the pairing produced by
`vertices.chunks_exact(2)`: disjoint consecutive pairs
`(v0,v1), (v2,v3), ...`, dropping a trailing odd element. -/
def chunksExact2 : List α → List (α × α)
  | a :: b :: rest => (a, b) :: chunksExact2 rest
  | _ => []

/-- Helper for the initializers: adds one vertex per point, in input
order, collecting the returned ids (`segments.rs:444-446, 452-454,
469-471`); `passive` selects `add_passive_vertex` over `add_vertex`. -/
def addAllVertices (passive : Bool) (sg : Int) :
    Segments → List (ℚ × ℚ) → Except String (Segments × List Int)
  | s, [] => Except.ok (s, [])
  | s, p :: rest => do
    let (s, v) ←
      if passive then s.add_passive_vertex p.1 p.2 sg
      else s.add_vertex p.1 p.2 sg
    let (s, vs) ← addAllVertices passive sg s rest
    Except.ok (s, v :: vs)

namespace Segments

/-- Source `segments.rs:430-462` - `Segments::init_line_segment(xys,
lock_edges)`: one vertex per point in order (first and last passive when
`lock_edges`; the slicing `xys[1..len-1]` of the source panics for fewer
than two points), then one edge per `chunks_exact(2)` pair of the
collected ids, then `s_num` is incremented. -/
def init_line_segment (s : Segments) (xys : List (ℚ × ℚ))
    (lock_edges : Bool) : Except String Segments := do
  let sg : Int := (s.s_num : Int)
  let (s, vertices) ←
    if lock_edges then
      match xys with
      | [] => Except.error "index out of bounds"
      | [_] => Except.error "slice index out of range"
      | p0 :: p1 :: rest => do
        let pl := (p1 :: rest).getLast (List.cons_ne_nil p1 rest)
        let middle := (p1 :: rest).dropLast
        let (s, v0) ← s.add_passive_vertex p0.1 p0.2 sg
        let (s, vmid) ← addAllVertices false sg s middle
        let (s, vl) ← s.add_passive_vertex pl.1 pl.2 sg
        Except.ok (s, v0 :: (vmid ++ [vl]))
    else
      addAllVertices false sg s xys
  let s ← (chunksExact2 vertices).foldlM
    (fun st p => do
      let (st, _) ← st.add_edge p.1 p.2
      Except.ok st)
    s
  Except.ok { s with s_num := s.s_num + 1 }

end Segments

namespace Segments

/-- Source `segments.rs:416-423` - `Segments::get_edge_length(e1)` computes
`nx = x[ev[2e]] - x[ev[2e+1]]`, `ny` likewise, and returns
`nx.hypot(ny)`. The square root is irrational in general, so this
embedding returns the SQUARE `nx² + ny²` of the value the source
returns; every modelled call site compares the length against a
threshold and is adjusted to compare squares, which is equivalent for
the nonnegative thresholds the program uses (`hypot` is nonnegative). -/
def get_edge_length_sq (s : Segments) (e1 : Int) : Except String ℚ := do
  let ei ← usizeIdx e1
  let a ← vecGet s.ev (2 * ei)
  let ai ← usizeIdx a
  let b ← vecGet s.ev (2 * ei + 1)
  let bi ← usizeIdx b
  let xa ← vecGet s.x ai
  let xb ← vecGet s.x bi
  let ya ← vecGet s.y ai
  let yb ← vecGet s.y bi
  Except.ok ((xa - xb) * (xa - xb) + (ya - yb) * (ya - yb))

end Segments

/-- Source `mod.rs:29-44` - `spawn(df, near_l, limit)`: for each edge index
below the initial `e_num`, the trigger `let x = 0.1; if x < limit`
guards the whole body; when it holds, edges of length at least `near_l`
are split with `split_edge_no_min` (the `Err` result is discarded, a
panic propagates). The length comparison `l < near_l` of the source is
modelled as `l² < near_l²`, equivalent for the nonnegative `near_l` the
driver passes. -/
def spawn (s : Segments) (near_l limit : ℚ) : Except String Segments :=
  (List.range s.e_num).foldlM
    (fun st (e : Nat) =>
      if (1/10 : ℚ) < limit then do
        let lsq ← st.get_edge_length_sq (Int.ofNat e)
        if lsq < near_l * near_l then
          Except.ok st
        else do
          let (st2, _) ← st.split_edge_no_min (Int.ofNat e)
          Except.ok st2
      else
        Except.ok st)
    s

/-- One neighbor as seen by the loop of `DifferentialLine::reject`
(`differential_line.rs:77-106`): the source computes
`dx = x[v] - x[neighbor]`, `dy = y[v] - y[neighbor]` and
`norm = dx.hypot(dy)`, and classifies the neighbor as linked exactly
when its id equals `v1` or `v2` (the two graph neighbors of `v`). The
loop is embedded over the sequence of `(dx, dy, norm, linked)` data it
reads; `norm` is irrational in general, so it is carried as a field
that the theorems constrain by `norm² = dx² + dy²` where relevant. -/
structure RNeighbor where
  dx : ℚ
  dy : ℚ
  norm : ℚ
  linked : Bool
deriving DecidableEq, Repr

/-- Source `differential_line.rs:84-102` - the per-neighbor force term of
`DifferentialLine::reject`: a linked neighbor with `norm < near_l` or
`norm ≤ 0` is skipped (`continue`), otherwise contributes the
attraction `(step * -dx / norm, step * -dy / norm)`; an unlinked
neighbor with `norm > far_l` or `norm ≤ 0` is skipped, otherwise
contributes the repulsion
`(step * dx * (far_l / norm - 1), step * dy * (far_l / norm - 1))`.
`none` is a skipped neighbor. -/
def rejectTerm (step near_l far_l : ℚ) (n : RNeighbor) :
    Option (ℚ × ℚ) :=
  if n.linked then
    if n.norm < near_l ∨ n.norm ≤ 0 then none
    else some (step * (-n.dx) / n.norm, step * (-n.dy) / n.norm)
  else
    if n.norm > far_l ∨ n.norm ≤ 0 then none
    else some (step * n.dx * (far_l / n.norm - 1),
      step * n.dy * (far_l / n.norm - 1))

/-- Source `differential_line.rs:75-106` - the accumulation structure of the
loop of `reject`: `res` is the running pair `(res_x, res_y)`, and after
every NON-skipped neighbor the source executes
`sx[v] += res_x; sy[v] += res_y` INSIDE the loop (lines 104-105), so the
running total is added to the scratch accumulator once per contributing
neighbor. `sxy` models the pair `(sx[v], sy[v])`. -/
def rejectAccum (step near_l far_l : ℚ) :
    List RNeighbor → ℚ × ℚ → ℚ × ℚ → ℚ × ℚ
  | [], _, sxy => sxy
  | n :: rest, res, sxy =>
    match rejectTerm step near_l far_l n with
    | none => rejectAccum step near_l far_l rest res sxy
    | some t =>
      let res2 := (res.1 + t.1, res.2 + t.2)
      rejectAccum step near_l far_l rest res2
        (sxy.1 + res2.1, sxy.2 + res2.2)

/-- The value the loop of `reject` leaves in `(sx[v], sy[v])` when both
start at 0, which is how `optimize_position` initializes them
(`differential_line.rs:123-124`) before it adds `(sx[v], sy[v])` to the
position of `v` (`differential_line.rs:142-143`). -/
def rejectDisplacement (step near_l far_l : ℚ) (ns : List RNeighbor) :
    ℚ × ℚ :=
  rejectAccum step near_l far_l ns (0, 0) (0, 0)

/-- Stated from the claim: the plain sum of the individual per-neighbor
force terms, each counted exactly once. -/
def claimedTermSum (step near_l far_l : ℚ) (ns : List RNeighbor) :
    ℚ × ℚ :=
  ns.foldl
    (fun acc n =>
      match rejectTerm step near_l far_l n with
      | none => acc
      | some t => (acc.1 + t.1, acc.2 + t.2))
    (0, 0)

/-- Number of non-skipped (contributing) neighbors of a list. -/
def contributingCount (step near_l far_l : ℚ) :
    List RNeighbor → Nat
  | [] => 0
  | n :: rest =>
    match rejectTerm step near_l far_l n with
    | none => contributingCount step near_l far_l rest
    | some _ => contributingCount step near_l far_l rest + 1

/-- Closed form of the accumulated displacement: each contributing
neighbor term is counted once for itself and once for every
contributing neighbor that follows it in the list. -/
def suffixWeightedSum (step near_l far_l : ℚ) :
    List RNeighbor → ℚ × ℚ
  | [] => (0, 0)
  | n :: rest =>
    let w := suffixWeightedSum step near_l far_l rest
    match rejectTerm step near_l far_l n with
    | none => w
    | some t =>
      let k : ℚ := (contributingCount step near_l far_l rest + 1 : Nat)
      (k * t.1 + w.1, k * t.2 + w.2)

/-- One slot of the loop of `safe_vertex_positions`
(`segments.rs:751-754`): slot `i` passes when both coordinates lie in
`limit..=1-limit`; the status array `va` is not consulted. -/
def slotWithin (s : Segments) (limit : ℚ) (i : Nat) : Bool :=
  match s.x.get? i, s.y.get? i with
  | some xi, some yi =>
    decide ((limit ≤ xi ∧ xi ≤ 1 - limit) ∧ (limit ≤ yi ∧ yi ≤ 1 - limit))
  | _, _ => false

/-- Every slot below `v_num` - live or tombstoned - passes the
coordinate range check. -/
def allSlotsWithin (s : Segments) (limit : ℚ) : Bool :=
  (List.range s.v_num).all (slotWithin s limit)

/-- Stated from the spec: every LIVE (status above -1) vertex below
`v_num` passes the coordinate range check; tombstoned slots are
exempt. -/
def liveVerticesWithin (s : Segments) (limit : ℚ) : Bool :=
  (List.range s.v_num).all fun i =>
    match s.va.get? i, s.x.get? i, s.y.get? i with
    | some ai, some xi, some yi =>
      if -1 < ai then
        decide ((limit ≤ xi ∧ xi ≤ 1 - limit) ∧
          (limit ≤ yi ∧ yi ≤ 1 - limit))
      else true
    | _, _, _ => false

deriving instance DecidableEq for Except

/-- Concrete input state for the split evaluations: two live vertices
at (1/4, 1/2) and (3/4, 1/2) joined by edge 0, capacity 4; the zone map
is as `ZoneMap.new 3` builds it, with its vertex counter matching
`v_num = 2`. -/
def splitState : Segments :=
  { n_max := 4, zone_width := 1/3, v_num := 2, v_act := 0, e_num := 1,
    s_num := 1, nz := 3,
    x := [1/4, 3/4, 0, 0], y := [1/2, 1/2, 0, 0],
    va := [1, 1, -1, -1], vs := [0, 0, -1, -1],
    ev := [0, 1, -1, -1, -1, -1, -1, -1],
    ve := [0, -1, 0, -1, -1, -1, -1, -1],
    zone_map := { ZoneMap.new 3 with v_num := 2 } }

/-- Concrete input state for the collapse evaluation: a three-vertex
chain 0 - 1 - 2 (edges 0 and 1), all vertices Active, capacity 4. -/
def collapseState : Segments :=
  { n_max := 4, zone_width := 1/3, v_num := 3, v_act := 0, e_num := 2,
    s_num := 1, nz := 3,
    x := [2/5, 1/2, 3/5, 0], y := [1/2, 1/2, 1/2, 0],
    va := [1, 1, 1, -1], vs := [0, 0, 0, -1],
    ev := [0, 1, 1, 2, -1, -1, -1, -1],
    ve := [0, -1, 0, 1, 1, -1, -1, -1],
    zone_map := { ZoneMap.new 3 with v_num := 3 } }

/-- Concrete input state with a single TOMBSTONED vertex (status -1)
whose stored coordinates (0, 1/2) lie outside the margin band: no live
vertex exists, yet slot 0 fails the range check. -/
def tombstoneState : Segments :=
  { n_max := 2, zone_width := 1/3, v_num := 1, v_act := 0, e_num := 0,
    s_num := 0, nz := 3,
    x := [0, 0], y := [1/2, 0],
    va := [-1, -1], vs := [-1, -1],
    ev := [-1, -1, -1, -1], ve := [-1, -1, -1, -1],
    zone_map := ZoneMap.new 3 }

/-- Concrete input state with one live vertex and one tombstoned vertex,
all stored coordinates inside the margin band for `limit = 1/4`. -/
def mixedState : Segments :=
  { n_max := 2, zone_width := 1/3, v_num := 2, v_act := 0, e_num := 0,
    s_num := 0, nz := 3,
    x := [1/2, 1/3], y := [1/2, 2/5],
    va := [1, -1], vs := [0, 0],
    ev := [-1, -1, -1, -1], ve := [-1, -1, -1, -1],
    zone_map := ZoneMap.new 3 }

/-!
Theorems. The general lemmas come first; each claim of the review then
gets exactly one theorem (plus, where applicable, a witness or a
counterexample).
-/

theorem vecGet_cons_zero (a : α) (l : List α) :
    vecGet (a :: l) 0 = Except.ok a := rfl

theorem exceptBind_ok (a : α) (f : α → Except String β) :
    (Except.ok a >>= f) = f a := rfl

theorem exceptBind_err (e : String) (f : α → Except String β) :
    ((Except.error e : Except String α) >>= f) = Except.error e := rfl

theorem ratTrunc_eq_floor {x : ℚ} (h : 0 ≤ x) : ratTrunc x = ⌊x⌋ := by
  rw [ratTrunc, if_pos h, Rat.floor_def', ← Rat.floor_def]

theorem ratTrunc_zero_of_unit {x : ℚ} (h0 : 0 ≤ x) (h1 : x < 1) :
    ratTrunc x = 0 := by
  rw [ratTrunc_eq_floor h0]
  exact Int.floor_eq_zero_iff.mpr ⟨h0, h1⟩

theorem get_z_zero (m : ZoneMap) {x y : ℚ} (hx0 : 0 ≤ x) (hx1 : x < 1)
    (hy0 : 0 ≤ y) (hy1 : y < 1) : m.get_z x y = 0 := by
  simp [ZoneMap.get_z, ratTrunc_zero_of_unit hx0 hx1,
    ratTrunc_zero_of_unit hy0 hy1]

theorem zone_new_z_get (K : Nat) (hK : 0 < K) :
    vecGet (ZoneMap.new K).z 0 =
      Except.ok { i := 0, size := SIZE, count := 0, zv := [] } := by
  simp only [vecGet, ZoneMap.new]
  rw [List.get?_map, List.get?_range (Nat.mul_pos hK hK)]
  rfl

theorem zone_new_add_to_zone_err {K : Nat} (hK : 0 < K) (v1 : Int) :
    (ZoneMap.new K).add_vertex_to_zone 0 v1 =
      Except.error "index out of bounds" := by
  simp only [ZoneMap.add_vertex_to_zone,
    show usizeIdx 0 = Except.ok 0 from rfl, exceptBind_ok,
    zone_new_z_get K hK,
    show ∀ v : Int,
      Sz.add_vertex { i := 0, size := SIZE, count := 0, zv := [] } v =
        Except.error "index out of bounds" from fun _ => rfl,
    exceptBind_err]

theorem zone_new_add_vertex_err {K : Nat} (hK : 0 < K) {xs ys : List ℚ}
    {x y : ℚ} (hxs : vecGet xs 0 = Except.ok x)
    (hys : vecGet ys 0 = Except.ok y)
    (hx0 : 0 ≤ x) (hx1 : x < 1) (hy0 : 0 ≤ y) (hy1 : y < 1) :
    (ZoneMap.new K).add_vertex 0 xs ys =
      Except.error "index out of bounds" := by
  simp only [ZoneMap.add_vertex,
    show (ZoneMap.new K).v_num = 0 from rfl, hxs, hys, exceptBind_ok,
    get_z_zero _ hx0 hx1 hy0 hy1, zone_new_add_to_zone_err hK,
    exceptBind_err]

theorem addVertex_fresh_err (n : Nat) (zw x y : ℚ) (sg : Int)
    (hn : 1 ≤ n) (hx0 : 0 ≤ x) (hx1 : x < 1) (hy0 : 0 ≤ y) (hy1 : y < 1) :
    (Segments.new n zw).add_vertex x y sg =
      Except.error "index out of bounds" := by
  obtain ⟨m, rfl⟩ : ∃ m, n = m + 1 :=
    ⟨n - 1, (Nat.succ_pred_eq_of_pos hn).symm⟩
  have hv : validNewVertex x y = true := by
    simp only [validNewVertex, decide_eq_true_eq]
    exact ⟨hx0, le_of_lt hx1, hy0, le_of_lt hy1⟩
  have hK : 0 < (if ratTruncU64 zw⁻¹ < 3 then 1 else ratTruncU64 zw⁻¹) := by
    split_ifs with h
    · exact Nat.one_pos
    · omega
  have hset : ∀ (a b : ℚ) (l : List ℚ), vecSet (a :: l) 0 b =
      Except.ok (b :: l) := by
    intro a b l
    simp [vecSet]
  have hseti : ∀ (a b : Int) (l : List Int), vecSet (a :: l) 0 b =
      Except.ok (b :: l) := by
    intro a b l
    simp [vecSet]
  simp only [Segments.add_vertex, Segments.new, hv, Bool.not_true,
    Bool.false_eq_true, if_false, List.replicate_succ, hset, hseti,
    exceptBind_ok]
  rw [zone_new_add_vertex_err hK (vecGet_cons_zero x (List.replicate m 0))
    (vecGet_cons_zero y (List.replicate m 0)) hx0 hx1 hy0 hy1]
  rfl

theorem addPassiveVertex_fresh_err (n : Nat) (zw x y : ℚ) (sg : Int)
    (hn : 1 ≤ n) (hx0 : 0 ≤ x) (hx1 : x < 1) (hy0 : 0 ≤ y) (hy1 : y < 1) :
    (Segments.new n zw).add_passive_vertex x y sg =
      Except.error "index out of bounds" := by
  obtain ⟨m, rfl⟩ : ∃ m, n = m + 1 :=
    ⟨n - 1, (Nat.succ_pred_eq_of_pos hn).symm⟩
  have hv : validNewVertex x y = true := by
    simp only [validNewVertex, decide_eq_true_eq]
    exact ⟨hx0, le_of_lt hx1, hy0, le_of_lt hy1⟩
  have hK : 0 < (if ratTruncU64 zw⁻¹ < 3 then 1 else ratTruncU64 zw⁻¹) := by
    split_ifs with h
    · exact Nat.one_pos
    · omega
  have hset : ∀ (a b : ℚ) (l : List ℚ), vecSet (a :: l) 0 b =
      Except.ok (b :: l) := by
    intro a b l
    simp [vecSet]
  have hseti : ∀ (a b : Int) (l : List Int), vecSet (a :: l) 0 b =
      Except.ok (b :: l) := by
    intro a b l
    simp [vecSet]
  simp only [Segments.add_passive_vertex, Segments.new, hv, Bool.not_true,
    Bool.false_eq_true, if_false, List.replicate_succ, hset, hseti,
    exceptBind_ok]
  rw [zone_new_add_vertex_err hK (vecGet_cons_zero x (List.replicate m 0))
    (vecGet_cons_zero y (List.replicate m 0)) hx0 hx1 hy0 hy1]
  rfl

theorem safeCheckFrom_eq (s : Segments) (limit : ℚ) (l : List Nat)
    (hl : ∀ i ∈ l, i < s.x.length ∧ i < s.y.length) :
    safeCheckFrom s limit l = Except.ok (l.all (slotWithin s limit)) := by
  induction l with
  | nil => rfl
  | cons i rest ih =>
    have hi := hl i (List.mem_cons_self i rest)
    obtain ⟨xi, hxi⟩ : ∃ xi, s.x.get? i = some xi :=
      ⟨_, List.get?_eq_get hi.1⟩
    obtain ⟨yi, hyi⟩ : ∃ yi, s.y.get? i = some yi :=
      ⟨_, List.get?_eq_get hi.2⟩
    have hrest : ∀ j ∈ rest, j < s.x.length ∧ j < s.y.length :=
      fun j hj => hl j (List.mem_cons_of_mem i hj)
    by_cases hc :
        ¬ (limit ≤ xi ∧ xi ≤ 1 - limit) ∨ ¬ (limit ≤ yi ∧ yi ≤ 1 - limit)
    · have hslot : slotWithin s limit i = false := by
        simp only [slotWithin, hxi, hyi, decide_eq_false_iff_not]
        tauto
      simp only [safeCheckFrom, vecGet, hxi, hyi, exceptBind_ok,
        if_pos hc, List.all_cons, hslot, Bool.false_and]
    · have hslot : slotWithin s limit i = true := by
        simp only [slotWithin, hxi, hyi, decide_eq_true_eq]
        tauto
      simp only [safeCheckFrom, vecGet, hxi, hyi, exceptBind_ok,
        if_neg hc, List.all_cons, hslot, Bool.true_and, ih hrest]

theorem rejectAccum_closed (step near_l far_l : ℚ) (ns : List RNeighbor)
    (res sxy : ℚ × ℚ) :
    rejectAccum step near_l far_l ns res sxy =
      (sxy.1 + (contributingCount step near_l far_l ns : ℚ) * res.1 +
          (suffixWeightedSum step near_l far_l ns).1,
        sxy.2 + (contributingCount step near_l far_l ns : ℚ) * res.2 +
          (suffixWeightedSum step near_l far_l ns).2) := by
  induction ns generalizing res sxy with
  | nil =>
    simp [rejectAccum, contributingCount, suffixWeightedSum]
  | cons n rest ih =>
    cases h : rejectTerm step near_l far_l n with
    | none =>
      simp only [rejectAccum, h, contributingCount, suffixWeightedSum, ih]
    | some t =>
      simp only [rejectAccum, h, contributingCount, suffixWeightedSum, ih]
      rw [Prod.mk.injEq]
      push_cast
      constructor <;> ring

/-- C1: evaluation of `init_line_segment` on three in-square points: the
call does not build the claimed 3-vertex, 2-edge chain but panics with
an index out-of-bounds inside the zone map while inserting the very
first vertex; moreover the edge-pairing the initializers use,
`chunks_exact(2)` (`chunksExact2`), pairs the three collected vertex ids
as `[(v0, v1)]` - one disjoint pair - rather than the two consecutive
pairs `[(v0, v1), (v1, v2)]` of an open chain. -/
theorem init_line_segment_three_points_panics :
    (Segments.new 10 (1/3)).init_line_segment
        [(1/4, 1/4), (1/2, 1/2), (3/4, 3/4)] false =
      Except.error "index out of bounds" ∧
    chunksExact2 [0, 1, 2] = [(0, 1)] := by
  constructor
  · with_unfolding_all decide
  · decide

/-- C2: on a freshly constructed `Segments` (any capacity at least 1,
any positive zone width), the first `add_vertex` or `add_passive_vertex`
call with coordinates inside the unit square panics with an index
out-of-bounds - the zone-map vectors `zv` and `vz` were created with
`Vec::with_capacity` and have length 0, and `ZoneMap::add_vertex` /
`Sz::add_vertex` write to index 0 of them - and consequently
`init_line_segment` on any list starting with such a point cannot
complete either. -/
theorem fresh_segments_add_vertex_panics (n : Nat) (zw x y : ℚ)
    (sg : Int) (ps : List (ℚ × ℚ)) (hn : 1 ≤ n) (hzw : 0 < zw)
    (hx0 : 0 ≤ x) (hx1 : x < 1) (hy0 : 0 ≤ y) (hy1 : y < 1) :
    (Segments.new n zw).add_vertex x y sg =
        Except.error "index out of bounds" ∧
      (Segments.new n zw).add_passive_vertex x y sg =
        Except.error "index out of bounds" ∧
      (Segments.new n zw).init_line_segment ((x, y) :: ps) false =
        Except.error "index out of bounds" := by
  refine ⟨addVertex_fresh_err n zw x y sg hn hx0 hx1 hy0 hy1,
    addPassiveVertex_fresh_err n zw x y sg hn hx0 hx1 hy0 hy1, ?_⟩
  simp only [Segments.init_line_segment, Bool.false_eq_true, if_false,
    addAllVertices,
    addVertex_fresh_err n zw x y _ hn hx0 hx1 hy0 hy1, exceptBind_err]

/-- C2 witness: the theorem applied at capacity 8, zone width 1/5 and
the centre of the unit square. -/
theorem fresh_segments_add_vertex_panics_witness :
    (Segments.new 8 (1/5)).add_vertex (1/2) (1/2) 0 =
        Except.error "index out of bounds" ∧
      (Segments.new 8 (1/5)).add_passive_vertex (1/2) (1/2) 0 =
        Except.error "index out of bounds" ∧
      (Segments.new 8 (1/5)).init_line_segment [((1:ℚ)/2, (1:ℚ)/2)] false =
        Except.error "index out of bounds" :=
  fresh_segments_add_vertex_panics 8 (1/5) (1/2) (1/2) 0 []
    (by norm_num) (by norm_num) (by norm_num) (by norm_num) (by norm_num)
    (by norm_num)

/-- C3: evaluation at the failing input: with grid resolution
`nz = 10`, `get_z` maps the in-square point (0.55, 0.35) to zone 0,
whereas the cell formula of the claim,
`nz * floor(x * nz) + floor(y * nz)`, gives 53: the source computes
`x as i64 * nz` (truncation BEFORE scaling), so every point of
`[0,1) x [0,1)` lands in zone 0. -/
theorem get_z_ignores_fractional_coordinates :
    (ZoneMap.new 10).get_z (11/20) (7/20) = 0 ∧
      (10 : ℤ) * ⌊(11/20 : ℚ) * 10⌋ + ⌊(7/20 : ℚ) * 10⌋ = 53 := by
  constructor
  · with_unfolding_all decide
  · rw [show ((11:ℚ)/20) * 10 = 11/2 by norm_num,
      show ((7:ℚ)/20) * 10 = 7/2 by norm_num,
      show ⌊(11/2 : ℚ)⌋ = 5 from Int.floor_eq_iff.mpr (by norm_num),
      show ⌊(7/2 : ℚ)⌋ = 3 from Int.floor_eq_iff.mpr (by norm_num)]
    norm_num

/-- C4 counterexample: with two contributing unlinked neighbors (both at
rational distance 1/20, a 3-4-5 configuration, `far_l = 1/10`,
`step = 1/100`), the displacement the reject loop accumulates,
(2/10000, 11/10000), differs from the plain sum of the two per-neighbor
terms, (-1/10000, 7/10000): the source adds the running total `res` to
`sx[v]` INSIDE the neighbor loop, so the first term is counted twice. -/
theorem reject_displacement_counts_terms_twice :
    rejectDisplacement (1/100) (1/50) (1/10)
        [⟨3/100, 4/100, 1/20, false⟩, ⟨-4/100, 3/100, 1/20, false⟩] ≠
      claimedTermSum (1/100) (1/50) (1/10)
        [⟨3/100, 4/100, 1/20, false⟩, ⟨-4/100, 3/100, 1/20, false⟩] := by
  have h1 : rejectDisplacement (1/100) (1/50) (1/10)
      [⟨3/100, 4/100, 1/20, false⟩, ⟨-4/100, 3/100, 1/20, false⟩] =
        (2/10000, 11/10000) := by
    norm_num [rejectDisplacement, rejectAccum, rejectTerm]
  have h2 : claimedTermSum (1/100) (1/50) (1/10)
      [⟨3/100, 4/100, 1/20, false⟩, ⟨-4/100, 3/100, 1/20, false⟩] =
        (-1/10000, 7/10000) := by
    norm_num [claimedTermSum, List.foldl, rejectTerm]
  rw [h1, h2]
  intro h
  rw [Prod.mk.injEq] at h
  norm_num at h

/-- C4 (amended): the displacement the reject loop accumulates for a
vertex equals the SUFFIX-WEIGHTED sum of the per-neighbor force terms -
each contributing neighbor term is counted once for itself and once
more for every contributing neighbor after it - rather than the plain
sum; the two agree exactly when at most one neighbor contributes. -/
theorem reject_displacement_eq_suffix_weighted_sum
    (step near_l far_l : ℚ) (ns : List RNeighbor) :
    rejectDisplacement step near_l far_l ns =
      suffixWeightedSum step near_l far_l ns := by
  rw [rejectDisplacement, rejectAccum_closed]
  simp

/-- C5 counterexample: on a state whose only vertex is tombstoned
(status -1) with stored coordinates (0, 1/2), `safe_vertex_positions`
with margin 1/4 returns false although every LIVE vertex (there are
none) is trivially inside the margin band - the result does depend on
the stored coordinates of deleted vertices. -/
theorem safe_vertex_positions_reads_deleted_slots :
    tombstoneState.safe_vertex_positions (1/4) = Except.ok false ∧
      liveVerticesWithin tombstoneState (1/4) = true := by
  constructor
  · with_unfolding_all decide
  · with_unfolding_all decide

/-- C5 (amended): `safe_vertex_positions(limit)` returns true if and
only if EVERY slot below `v_num` - live or tombstoned alike, the status
array is never consulted - has both coordinates in `limit..=1-limit`. -/
theorem safe_vertex_positions_checks_all_slots (s : Segments)
    (limit : ℚ) (hx : s.v_num ≤ s.x.length) (hy : s.v_num ≤ s.y.length) :
    s.safe_vertex_positions limit =
      Except.ok (allSlotsWithin s limit) := by
  rw [Segments.safe_vertex_positions, allSlotsWithin]
  exact safeCheckFrom_eq s limit (List.range s.v_num) fun i hi =>
    ⟨lt_of_lt_of_le (List.mem_range.mp hi) hx,
      lt_of_lt_of_le (List.mem_range.mp hi) hy⟩

/-- C5 witness: the theorem applied to a state with one live and one
tombstoned vertex, margin 1/4. -/
theorem safe_vertex_positions_checks_all_slots_witness :
    mixedState.safe_vertex_positions (1/4) =
      Except.ok (allSlotsWithin mixedState (1/4)) :=
  safe_vertex_positions_checks_all_slots mixedState (1/4)
    (by decide) (by decide)

/-- C6: evaluation of `split_edge` on a two-vertex mesh: a negative
edge id and a nonexistent (tombstoned) edge id both return the soft
failure `Err` with the state entirely unchanged, exactly as claimed;
but on the valid live edge 0 the call does not perform the claimed
split - it panics with an index out-of-bounds inside
`ZoneMap::add_vertex` while creating the midpoint vertex (the zone-map
vectors have length 0). -/
theorem split_edge_soft_fails_but_split_path_panics :
    splitState.split_edge (-5) (-1) =
        Except.ok (splitState, RustResult.err) ∧
      splitState.split_edge 2 (-1) =
        Except.ok (splitState, RustResult.err) ∧
      splitState.split_edge 0 (-1) =
        Except.error "index out of bounds" := by
  refine ⟨?_, ?_, ?_⟩ <;> with_unfolding_all decide

/-- C7: evaluation of `collapse_edge` on a three-vertex Active chain
0 - 1 - 2, collapsing edge 1 = (v1, v2): the preliminary checks pass,
but instead of completing the claimed collapse the call panics with an
index out-of-bounds inside `ZoneMap::delete_vertex` when deleting `v1`
(the zone-map vector `vz` has length 0). -/
theorem collapse_edge_success_path_panics :
    collapseState.collapse_edge 1 (-1) =
      Except.error "index out of bounds" := by
  with_unfolding_all decide

/-- C8: the repulsion branch of the reject loop, for an unlinked
neighbor at geometric distance `norm` (constrained to
`norm^2 = dx^2 + dy^2`): at `norm = far_l` the contribution is exactly
(0, 0) on both axes; at `norm = far_l / 2` (with `far_l > 0`) the
squared magnitude of the contribution is exactly
`(step * (far_l / 2))^2`; and beyond `far_l` the neighbor is skipped
entirely (`none`). -/
theorem repulsion_zero_crossing (step near_l far_l dx dy norm : ℚ)
    (hn : norm * norm = dx * dx + dy * dy) :
    (norm = far_l →
      (rejectTerm step near_l far_l ⟨dx, dy, norm, false⟩).getD (0, 0) =
        (0, 0)) ∧
    (norm = far_l / 2 → 0 < far_l →
      ((rejectTerm step near_l far_l ⟨dx, dy, norm, false⟩).getD
            (0, 0)).1 ^ 2 +
          ((rejectTerm step near_l far_l ⟨dx, dy, norm, false⟩).getD
            (0, 0)).2 ^ 2 =
        (step * (far_l / 2)) ^ 2) ∧
    (far_l < norm →
      rejectTerm step near_l far_l ⟨dx, dy, norm, false⟩ = none) := by
  refine ⟨?_, ?_, ?_⟩
  · intro h
    rw [h] at hn ⊢
    by_cases hf : far_l ≤ 0
    · simp [rejectTerm, hf]
    · have hne : far_l ≠ 0 := fun hh => hf (le_of_eq hh)
      simp [rejectTerm, hf, div_self hne]
  · intro h hf
    rw [h] at hn ⊢
    have hne : far_l ≠ 0 := ne_of_gt hf
    have h1 : ¬ ((far_l / 2 > far_l) ∨ far_l / 2 ≤ 0) := by
      push_neg
      constructor <;> linarith
    have h2 : far_l / (far_l / 2) - 1 = 1 := by
      rw [div_div_eq_mul_div, mul_comm, mul_div_assoc, div_self hne]
      norm_num
    simp only [rejectTerm, Bool.false_eq_true, if_false, if_neg h1, h2,
      Option.getD_some, mul_one]
    linear_combination (-step ^ 2) * hn
  · intro h
    simp [rejectTerm, h]

/-- C8 witness: the theorem applied at `step = 1/100`, `near_l = 0`,
`far_l = 1/10` and the 3-4-5 neighbor (3/100, 4/100) at distance
`1/20 = far_l / 2`. -/
theorem repulsion_zero_crossing_witness :
    ((1/20 : ℚ) = 1/10 →
      (rejectTerm (1/100) 0 (1/10)
          ⟨3/100, 4/100, 1/20, false⟩).getD (0, 0) = (0, 0)) ∧
    ((1/20 : ℚ) = 1/10 / 2 → 0 < (1/10 : ℚ) →
      ((rejectTerm (1/100) 0 (1/10)
            ⟨3/100, 4/100, 1/20, false⟩).getD (0, 0)).1 ^ 2 +
          ((rejectTerm (1/100) 0 (1/10)
            ⟨3/100, 4/100, 1/20, false⟩).getD (0, 0)).2 ^ 2 =
        ((1/100 : ℚ) * (1/10 / 2)) ^ 2) ∧
    ((1/10 : ℚ) < 1/20 →
      rejectTerm (1/100) 0 (1/10) ⟨3/100, 4/100, 1/20, false⟩ = none) :=
  repulsion_zero_crossing (1/100) 0 (1/10) (3/100) (4/100) (1/20)
    (by norm_num)

/-- C9: `spawn` with the driver limit 0.001 is a no-op on every
`Segments` state: the trigger compares the constant 0.1 against the
limit before doing anything else, `0.1 < 0.001` is false, and so no
edge is measured or split and the state is returned unchanged. -/
theorem spawn_driver_limit_is_noop (s : Segments) (near_l : ℚ) :
    spawn s near_l (1/1000) = Except.ok s := by
  unfold spawn
  have h : ¬ ((1/10 : ℚ) < 1/1000) := by norm_num
  generalize List.range s.e_num = l
  induction l with
  | nil => rfl
  | cons a l ih =>
    rw [List.foldlM_cons, if_neg h, exceptBind_ok, ih]

/-- C10: the relaxation arithmetic does not keep live vertices inside
the unit square: for a vertex at (0, 1/2) - a position `valid_new_vertex`
accepts - whose two linked neighbors are comfortably close (skipped)
and which has one unlinked neighbor at distance 1/100, the displacement
the reject loop accumulates with `step = 1/100`, `near_l = 1/50`,
`far_l = 1/10` is (-9/10000, 0), and the position
`optimize_position` would assign, (0 - 9/10000, 1/2), lies OUTSIDE the
unit square. -/
theorem relaxation_displacement_exits_unit_square :
    validNewVertex 0 (1/2) = true ∧
      rejectDisplacement (1/100) (1/50) (1/10)
          [⟨-1/200, 0, 1/200, true⟩, ⟨0, -1/200, 1/200, true⟩,
            ⟨-1/100, 0, 1/100, false⟩] = (-(9/10000), 0) ∧
      validNewVertex (0 + -(9/10000)) (1/2 + 0) = false := by
  refine ⟨?_, ?_, ?_⟩
  · with_unfolding_all decide
  · norm_num [rejectDisplacement, rejectAccum, rejectTerm]
  · norm_num [validNewVertex]
